import Mathlib

/-!
Shallow embedding of the invomodo service worker (src/sw.js): cache data
model, route classification, the four caching strategies, the install and
activate lifecycle handlers, and the GET_CACHE_STATUS administration
operation. Asynchronous platform operations are modelled by explicit state
passing: the cache storage is a value threaded through each handler, the
network is a function from URL to an optional response (none models a
rejected fetch), and observable side requests (fetch issued, skipWaiting
requested, clients claimed) are recorded as Boolean fields of each
handler result.
-/

namespace Invomodo

/-- JS String.prototype.includes restricted to the character list of a
string: true when pat occurs as a contiguous run inside l. -/
def charsInclude (pat : List Char) : List Char → Bool
  | [] => pat.isPrefixOf ([] : List Char)
  | c :: rest => pat.isPrefixOf (c :: rest) || charsInclude pat rest

/-- JS url.includes(pat). -/
def strIncludes (s pat : String) : Bool :=
  charsInclude pat.toList s.toList

/-- JS url.endsWith(pat). -/
def strEndsWith (s pat : String) : Bool :=
  pat.toList.isSuffixOf s.toList

/-- JS url.startsWith(pat). -/
def strStartsWith (s pat : String) : Bool :=
  pat.toList.isPrefixOf s.toList

/-- sw.js line 1. -/
def CACHE_NAME : String := "invomodo-v1.0.0"

/-- sw.js line 2. -/
def STATIC_CACHE_NAME : String := "invomodo-static-v1.0.0"

/-- sw.js line 3. -/
def RUNTIME_CACHE_NAME : String := "invomodo-runtime-v1.0.0"

/-- sw.js lines 6-14: assets cached on install. -/
def STATIC_ASSETS : List String :=
  ["/", "/index.html", "/manifest.json", "/firebase_auth.js",
   "/pkg/secure_pwa.js", "/pkg/secure_pwa_bg.wasm"]

/-- sw.js lines 17-20: routes cached with the network-first strategy. -/
def NETWORK_FIRST_ROUTES : List String := ["/api/", "/auth/"]

/-- sw.js lines 23-27: routes cached with the cache-first strategy. -/
def CACHE_FIRST_ROUTES : List String := ["/static/", "/icons/", "/assets/"]

/-- A captured HTTP response: status, status text and body snapshot.
The JS boolean flag response.ok is derived from the status. -/
structure Response where
  status : Nat
  statusText : String
  body : String
deriving Repr, DecidableEq

/-- JS Response.ok: status in the 200-299 range. -/
def Response.ok (r : Response) : Bool :=
  decide (200 ≤ r.status) && decide (r.status ≤ 299)

/-- An intercepted request: URL, HTTP method and request mode
(mode is the string navigate for page navigations). -/
structure Request where
  url : String
  method : String
  mode : String
deriving Repr, DecidableEq

/-- One cache partition body: an association list from request URL to the
stored response (the method is always GET in this system). -/
abbrev CacheEntries := List (String × Response)

/-- The whole CacheStorage: named partitions in creation order. -/
structure CacheStore where
  partitions : List (String × CacheEntries)
deriving Repr, DecidableEq

/-- Cache.match inside one partition: first entry stored under the URL. -/
def cacheGet (entries : CacheEntries) (url : String) : Option Response :=
  (entries.find? (fun e => e.1 == url)).map (fun e => e.2)

/-- caches.match over a partition list: the first partition holding an
entry for the URL wins. -/
def cachesMatchList (ps : List (String × CacheEntries)) (url : String) :
    Option Response :=
  ps.findSome? (fun p => cacheGet p.2 url)

/-- caches.match(request) across every partition. -/
def cachesMatch (store : CacheStore) (url : String) : Option Response :=
  cachesMatchList store.partitions url

/-- Does any partition hold an entry stored under this URL? -/
def storeHasEntry (store : CacheStore) (url : String) : Bool :=
  store.partitions.any (fun p => p.2.any (fun e => e.1 == url))

/-- caches.open(name): reuse the named partition, creating it empty at the
end of the list when absent. -/
def storeOpen (store : CacheStore) (name : String) : CacheStore :=
  if store.partitions.any (fun p => p.1 == name) then store
  else ⟨store.partitions ++ [(name, [])]⟩

/-- Cache.put inside one partition: replace the entry wholesale when the
URL is present, append it otherwise. -/
def cachePutEntries (entries : CacheEntries) (url : String) (resp : Response) :
    CacheEntries :=
  if entries.any (fun e => e.1 == url) then
    entries.map (fun e => if e.1 == url then (url, resp) else e)
  else entries ++ [(url, resp)]

/-- caches.open(name) followed by cache.put(url, resp). -/
def storePut (store : CacheStore) (name url : String) (resp : Response) :
    CacheStore :=
  let s := storeOpen store name
  ⟨s.partitions.map (fun p =>
    if p.1 == name then (p.1, cachePutEntries p.2 url resp) else p)⟩

/-- The network: fetch(url) either resolves with a response (possibly a
non-ok one) or rejects, modelled by none. -/
abbrev Network := String → Option Response

/-- Result of running one strategy: the value the strategy resolves with
(none models resolving with undefined or null, which the platform treats
as a failed response), the cache storage afterwards, and whether a
network fetch was issued. -/
structure StrategyResult where
  response : Option Response
  store : CacheStore
  networkUsed : Bool
deriving Repr, DecidableEq

/-- sw.js lines 107-142, networkFirstStrategy. Try the network; cache an
ok response in the runtime partition and return it. On fetch rejection
fall back to caches.match(request). On a miss, for navigation requests
sw.js line 130 evaluates the OR of the promise returned by the lookup of
the offline page URL and a freshly built Response carrying the inline
offline HTML; the promise object is always truthy, so the built Response
is unreachable and the awaited value is whatever that lookup produced,
which is no response at all when the offline page URL is uncached. For
non-navigation requests a 503 response is returned. -/
def networkFirstStrategy (net : Network) (store : CacheStore) (req : Request) :
    StrategyResult :=
  match net req.url with
  | some networkResponse =>
    if networkResponse.ok then
      ⟨some networkResponse,
       storePut store RUNTIME_CACHE_NAME req.url networkResponse, true⟩
    else ⟨some networkResponse, store, true⟩
  | none =>
    match cachesMatch store req.url with
    | some cachedResponse => ⟨some cachedResponse, store, true⟩
    | none =>
      if req.mode == "navigate" then
        ⟨cachesMatch store "/offline.html", store, true⟩
      else
        ⟨some ⟨503, "Service Unavailable", "Offline - Resource not available"⟩,
         store, true⟩

/-- sw.js lines 145-168, cacheFirstStrategy. Return a cache hit at once
without touching the network; otherwise fetch, cache an ok response in
the runtime partition, and return it; a rejected fetch yields a built
404 response. -/
def cacheFirstStrategy (net : Network) (store : CacheStore) (req : Request) :
    StrategyResult :=
  match cachesMatch store req.url with
  | some cachedResponse => ⟨some cachedResponse, store, false⟩
  | none =>
    match net req.url with
    | some networkResponse =>
      if networkResponse.ok then
        ⟨some networkResponse,
         storePut store RUNTIME_CACHE_NAME req.url networkResponse, true⟩
      else ⟨some networkResponse, store, true⟩
    | none => ⟨some ⟨404, "Not Found", "Resource not available"⟩, store, true⟩

/-- sw.js lines 171-173, cacheOnlyStrategy: exactly caches.match(request),
no network, no fallback. -/
def cacheOnlyStrategy (store : CacheStore) (req : Request) : StrategyResult :=
  ⟨cachesMatch store req.url, store, false⟩

/-- sw.js lines 176-193, staleWhileRevalidateStrategy. The cache lookup
and the network fetch both run; an ok network response refreshes the
runtime partition in the background and a rejected fetch resolves to
null. The returned expression on line 189 is the OR chain of the awaited
cache value, the network promise and a built 503 response; the network
promise object is always truthy, so the 503 is unreachable and on a
cache miss the awaited network outcome (null on rejection) is returned. -/
def staleWhileRevalidateStrategy (net : Network) (store : CacheStore)
    (req : Request) : StrategyResult :=
  let cachedResponse := cachesMatch store req.url
  let networkOutcome := net req.url
  let store1 :=
    match networkOutcome with
    | some networkResponse =>
      if networkResponse.ok then
        storePut store RUNTIME_CACHE_NAME req.url networkResponse
      else store
    | none => store
  match cachedResponse with
  | some c => ⟨some c, store1, true⟩
  | none => ⟨networkOutcome, store1, true⟩

/-- The four strategies a request can be dispatched to. -/
inductive Strategy where
  | networkFirst
  | cacheFirst
  | cacheOnly
  | staleWhileRevalidate
deriving Repr, DecidableEq

/-- sw.js lines 196-198. -/
def isNetworkFirstRoute (url : String) : Bool :=
  NETWORK_FIRST_ROUTES.any (fun route => strIncludes url route)

/-- sw.js lines 200-202. -/
def isCacheFirstRoute (url : String) : Bool :=
  CACHE_FIRST_ROUTES.any (fun route => strIncludes url route)

/-- sw.js lines 204-206. -/
def isStaticAsset (url : String) : Bool :=
  STATIC_ASSETS.any (fun asset => strEndsWith url asset)

/-- sw.js lines 80-104, the fetch listener. none models returning without
respondWith, so the platform performs its default fetch; otherwise the
listener dispatches to exactly one strategy, first match wins. -/
def routeRequest (req : Request) : Option Strategy :=
  if req.method != "GET" then none
  else if strStartsWith req.url "chrome-extension://" then none
  else if isNetworkFirstRoute req.url then some .networkFirst
  else if isCacheFirstRoute req.url then some .cacheFirst
  else if isStaticAsset req.url then some .cacheOnly
  else some .staleWhileRevalidate

/-- Result of the install listener: the cache storage afterwards, whether
self.skipWaiting() was called, and whether the promise handed to
event.waitUntil rejected. -/
structure InstallResult where
  store : CacheStore
  skipWaitingRequested : Bool
  waitUntilRejected : Bool
deriving Repr, DecidableEq

/-- cache.addAll(STATIC_ASSETS) succeeds when every asset fetch resolves
with an ok response. -/
def addAllOk (net : Network) : Bool :=
  STATIC_ASSETS.all (fun asset =>
    match net asset with
    | some r => r.ok
    | none => false)

/-- The entries written by a successful cache.addAll over the asset list. -/
def addAllStore (net : Network) (store : CacheStore) : CacheStore :=
  STATIC_ASSETS.foldl (fun s asset =>
    match net asset with
    | some r => storePut s STATIC_CACHE_NAME asset r
    | none => s) store

/-- sw.js lines 30-47, the install listener. The promise chain opens the
static partition, runs cache.addAll over STATIC_ASSETS, then calls
self.skipWaiting(); a trailing catch logs any failure. When addAll
rejects, the chain skips the skipWaiting step and the catch swallows the
error, so the promise handed to waitUntil always resolves. -/
def installHandler (net : Network) (store : CacheStore) : InstallResult :=
  let opened := storeOpen store STATIC_CACHE_NAME
  if addAllOk net then ⟨addAllStore net opened, true, false⟩
  else ⟨opened, false, false⟩

/-- Result of the activate listener: the cache storage after the sweep and
whether self.clients.claim() was called. -/
structure ActivateResult where
  store : CacheStore
  clientsClaimed : Bool
deriving Repr, DecidableEq

/-- sw.js lines 50-77, the activate listener: delete every partition whose
name starts with the invomodo- naming tag and is neither the current
static nor the current runtime name, then claim all clients. -/
def activateHandler (store : CacheStore) : ActivateResult :=
  let kept := store.partitions.filter (fun p =>
    !(strStartsWith p.1 "invomodo-" &&
      !(p.1 == STATIC_CACHE_NAME || p.1 == RUNTIME_CACHE_NAME)))
  ⟨⟨kept⟩, true⟩

/-- Per-partition cache detail reported by GET_CACHE_STATUS. -/
structure CacheDetail where
  itemCount : Nat
  size : Nat
deriving Repr, DecidableEq

/-- The structured GET_CACHE_STATUS result. -/
structure CacheStatus where
  cacheNames : List String
  totalSize : Nat
  cacheDetails : List (String × CacheDetail)
deriving Repr, DecidableEq

/-- What getCacheStatus posts back over the reply channel: either the
structured status or an object holding the error message. -/
inductive StatusReply where
  | ok (s : CacheStatus)
  | error (msg : String)
deriving Repr, DecidableEq

/-- sw.js lines 457-469: byte size of one partition, summing the blob size
of every stored response body, accumulated left to right from 0. -/
def partitionSize (entries : CacheEntries) : Nat :=
  entries.foldl (fun acc e => acc + e.2.body.utf8ByteSize) 0

/-- sw.js lines 445-483, getCacheStatus. The whole computation sits in a
try/catch whose catch replies with the error message; the input models
the enumeration of cache storage as either that error or the store. On
success the reply lists every partition name, each partition entry count
and byte size, and the running total. -/
def getCacheStatus (input : Except String CacheStore) : StatusReply :=
  match input with
  | .error msg => .error msg
  | .ok store =>
    .ok
      { cacheNames := store.partitions.map (fun p => p.1)
        totalSize :=
          store.partitions.foldl (fun acc p => acc + partitionSize p.2) 0
        cacheDetails := store.partitions.map (fun p =>
          (p.1, ⟨p.2.length, partitionSize p.2⟩)) }

/-! Helper lemmas about the cache model. -/

/-- A partition with no entry stored under the URL yields no match. -/
theorem cacheGet_eq_none (entries : CacheEntries) (url : String)
    (h : ∀ e ∈ entries, e.1 ≠ url) : cacheGet entries url = none := by
  unfold cacheGet
  rw [List.find?_eq_none.mpr]
  · rfl
  · intro e he
    simpa using h e he

/-- When no partition holds an entry for the URL, caches.match misses. -/
theorem cachesMatch_eq_none (store : CacheStore) (url : String)
    (h : storeHasEntry store url = false) : cachesMatch store url = none := by
  unfold cachesMatch cachesMatchList
  rw [List.findSome?_eq_none_iff]
  intro p hp
  apply cacheGet_eq_none
  intro e he
  unfold storeHasEntry at h
  rw [List.any_eq_false] at h
  have hp2 := h p hp
  simp only [List.any_eq_true, not_exists, not_and] at hp2
  have := hp2 e he
  simpa using this

/-- Folding addition of a measure over a list from any accumulator is the
accumulator plus the sum of the mapped list. -/
theorem foldl_add_eq_sum {α : Type} (f : α → Nat) :
    ∀ (l : List α) (a : Nat),
      l.foldl (fun acc x => acc + f x) a = a + (l.map f).sum := by
  intro l
  induction l with
  | nil => intro a; simp
  | cons x t ih =>
    intro a
    simp [List.foldl, ih, Nat.add_assoc]

/-- partitionSize is the sum of the stored body byte sizes. -/
theorem partitionSize_eq_sum (entries : CacheEntries) :
    partitionSize entries = (entries.map (fun e => e.2.body.utf8ByteSize)).sum := by
  unfold partitionSize
  simpa using foldl_add_eq_sum (fun e => e.2.body.utf8ByteSize) entries 0

/-- addAllOk unfolded to a statement about each declared asset. -/
theorem addAllOk_iff (net : Network) :
    addAllOk net = true ↔
      ∀ asset ∈ STATIC_ASSETS, ∃ r, net asset = some r ∧ r.ok = true := by
  unfold addAllOk
  rw [List.all_eq_true]
  constructor
  · intro h asset ha
    have := h asset ha
    cases hna : net asset with
    | none => rw [hna] at this; simp at this
    | some r => exact ⟨r, rfl, by rw [hna] at this; simpa using this⟩
  · intro h asset ha
    obtain ⟨r, hr, hok⟩ := h asset ha
    rw [hr]
    simpa using hok

/-! Shared concrete inputs used by witnesses and counterexamples. -/

/-- A network where every fetch rejects. -/
def noNetwork : Network := fun _ => none

/-- The empty cache storage. -/
def emptyStore : CacheStore := ⟨[]⟩

/-- The navigation request of the offline scenario in the spec. -/
def offlineReq : Request := ⟨"https://app.example/api/user/session", "GET", "navigate"⟩

/-- A generic request for the default strategy. -/
def swrReq : Request := ⟨"https://app.example/page", "GET", "cors"⟩

/-- A network where every fetch resolves ok with status 200. -/
def okNetwork : Network := fun url => some ⟨200, "OK", "body of " ++ url⟩

/-- The install listener runs self.skipWaiting() exactly when the caching
batch succeeded, because skipWaiting sits on the then-branch after the
addAll step and before the catch. -/
theorem install_skipWaiting_eq (net : Network) (store : CacheStore) :
    (installHandler net store).skipWaitingRequested = addAllOk net := by
  unfold installHandler
  cases h : addAllOk net <;> simp [h]

/-- The promise handed to waitUntil never rejects: the trailing catch on
sw.js line 43 swallows every failure of the chain. -/
theorem install_never_rejects (net : Network) (store : CacheStore) :
    (installHandler net store).waitUntilRejected = false := by
  unfold installHandler
  cases h : addAllOk net <;> simp [h]

/-- C1: the claim says a navigation-mode network-first request whose fetch
fails and that no partition has an entry for receives a synthesized
offline HTML response with status 200. On the code, with the network down
and the cache storage empty, the strategy resolves with no response at
all: sw.js line 130 ORs the promise returned by the lookup of the
offline page URL with the freshly built offline Response, and the
promise object is truthy, so the built Response is dead code and the
awaited lookup yields nothing. -/
theorem networkFirst_offline_navigation_yields_no_response :
    offlineReq.mode = "navigate" ∧
    noNetwork offlineReq.url = none ∧
    storeHasEntry emptyStore offlineReq.url = false ∧
    (networkFirstStrategy noNetwork emptyStore offlineReq).response = none :=
  ⟨rfl, rfl, rfl, rfl⟩

/-- C2: the claim says that on a cache miss with a failing network fetch
the stale-while-revalidate strategy returns a status 503 response. On
the code it resolves with null: sw.js line 189 ORs the awaited cache
value with the network promise and with a built 503 response, and the
promise object is truthy even when it resolves to null, so the 503 is
dead code. -/
theorem swr_cache_miss_network_failure_yields_no_response :
    storeHasEntry emptyStore swrReq.url = false ∧
    noNetwork swrReq.url = none ∧
    (staleWhileRevalidateStrategy noNetwork emptyStore swrReq).response = none :=
  ⟨rfl, rfl, rfl⟩

/-- C3 counterexample: with a network where every asset fetch rejects the
caching batch fails, and self.skipWaiting() is not called, refuting the
claim that the skip-waiting request is made even when the batch failed:
the skipWaiting step sits on the success branch of the promise chain and
is skipped when addAll rejects. -/
theorem install_failure_skips_skipWaiting :
    addAllOk noNetwork = false ∧
    (installHandler noNetwork emptyStore).skipWaitingRequested = false :=
  ⟨rfl, rfl⟩

/-- C3 amended: during install, skip-waiting is requested exactly when
the static-asset caching batch succeeds, that is when every declared
asset fetch resolves with an ok response; in every case the promise
handed to waitUntil resolves, a batch failure being caught and logged. -/
theorem install_skipWaiting_iff_batch_ok (net : Network) (store : CacheStore) :
    ((installHandler net store).skipWaitingRequested = true ↔
      ∀ asset ∈ STATIC_ASSETS, ∃ r, net asset = some r ∧ r.ok = true) ∧
    (installHandler net store).waitUntilRejected = false := by
  constructor
  · rw [install_skipWaiting_eq net store, ← addAllOk_iff net]
  · exact install_never_rejects net store

/-- With an everywhere-ok network the install batch succeeds and
skip-waiting is requested. -/
theorem install_skipWaiting_iff_batch_ok_witness :
    (installHandler okNetwork emptyStore).skipWaitingRequested = true :=
  (install_skipWaiting_iff_batch_ok okNetwork emptyStore).1.mpr
    (fun asset _ => ⟨⟨200, "OK", "body of " ++ asset⟩, rfl, rfl⟩)

/-- C4 counterexample: the asset path / is declared, its fetch rejects,
yet the promise handed to waitUntil resolves: the install step does not
fail, because the trailing catch swallows the addAll rejection. -/
theorem install_failure_waitUntil_resolves :
    "/" ∈ STATIC_ASSETS ∧
    noNetwork "/" = none ∧
    (installHandler noNetwork emptyStore).waitUntilRejected = false :=
  ⟨by decide, rfl, rfl⟩

/-- C4 amended: when fetching some declared asset fails, the caching
batch aborts (the store only gains the opened, otherwise untouched
static partition) and skip-waiting is not requested, but the install
step does not fail: the promise handed to waitUntil resolves because the
failure is caught and logged, so install-time caching is best-effort
just like runtime prefetch caching. -/
theorem install_batch_failure_nonfatal (net : Network) (store : CacheStore)
    (asset : String) (hmem : asset ∈ STATIC_ASSETS) (hfail : net asset = none) :
    (installHandler net store).waitUntilRejected = false ∧
    (installHandler net store).skipWaitingRequested = false ∧
    (installHandler net store).store = storeOpen store STATIC_CACHE_NAME := by
  have hok : addAllOk net = false := by
    cases h : addAllOk net
    · rfl
    · exfalso
      obtain ⟨r, hr, _⟩ := (addAllOk_iff net).mp h asset hmem
      rw [hfail] at hr
      cases hr
  unfold installHandler
  simp [hok]

/-- Concrete run of the failed-install scenario. -/
theorem install_batch_failure_nonfatal_witness :
    (installHandler noNetwork emptyStore).waitUntilRejected = false ∧
    (installHandler noNetwork emptyStore).skipWaitingRequested = false ∧
    (installHandler noNetwork emptyStore).store = storeOpen emptyStore STATIC_CACHE_NAME :=
  install_batch_failure_nonfatal noNetwork emptyStore "/" (by decide) rfl

/-- C5: the fetch listener passes non-GET requests and extension-scheme
requests through unhandled, and dispatches every other request to exactly
one strategy in first-match-wins order: network-first pattern, else
cache-first pattern, else static-asset suffix (cache-only), else
stale-while-revalidate. -/
theorem routeRequest_classification (req : Request) :
    (req.method ≠ "GET" → routeRequest req = none) ∧
    (strStartsWith req.url "chrome-extension://" = true → routeRequest req = none) ∧
    (req.method = "GET" → strStartsWith req.url "chrome-extension://" = false →
      ((isNetworkFirstRoute req.url = true →
          routeRequest req = some Strategy.networkFirst) ∧
       (isNetworkFirstRoute req.url = false → isCacheFirstRoute req.url = true →
          routeRequest req = some Strategy.cacheFirst) ∧
       (isNetworkFirstRoute req.url = false → isCacheFirstRoute req.url = false →
          isStaticAsset req.url = true →
          routeRequest req = some Strategy.cacheOnly) ∧
       (isNetworkFirstRoute req.url = false → isCacheFirstRoute req.url = false →
          isStaticAsset req.url = false →
          routeRequest req = some Strategy.staleWhileRevalidate))) := by
  refine ⟨?_, ?_, ?_⟩
  · intro h
    simp [routeRequest, h]
  · intro h
    by_cases hm : req.method = "GET"
    · simp [routeRequest, hm, h]
    · simp [routeRequest, hm]
  · intro hm hext
    refine ⟨?_, ?_, ?_, ?_⟩
    · intro h1
      simp [routeRequest, hm, hext, h1]
    · intro h1 h2
      simp [routeRequest, hm, hext, h1, h2]
    · intro h1 h2 h3
      simp [routeRequest, hm, hext, h1, h2, h3]
    · intro h1 h2 h3
      simp [routeRequest, hm, hext, h1, h2, h3]

/-- Concrete GET request carrying a network-first pattern is dispatched to
the network-first strategy. -/
theorem routeRequest_classification_witness :
    routeRequest offlineReq = some Strategy.networkFirst :=
  ((routeRequest_classification offlineReq).2.2 rfl (by decide)).1 (by decide)

/-- The cache storage of the activation sweep scenario in the spec. -/
def sweepStore : CacheStore :=
  ⟨[("invomodo-static-v1.0.0", []), ("invomodo-runtime-v1.0.0", []),
    ("invomodo-static-v0.9.0", [])]⟩

/-- C6: after the activate sweep every surviving partition whose name
carries the invomodo- naming tag is one of the two current names, every
stale tagged partition of the input is gone, clients are claimed, and,
partition names being distinct, at most one static and at most one
runtime partition remain. -/
theorem activate_sweep_current_only (store : CacheStore)
    (hnd : (store.partitions.map (fun p => p.1)).Nodup) :
    (∀ p ∈ (activateHandler store).store.partitions,
        strStartsWith p.1 "invomodo-" = true →
        p.1 = STATIC_CACHE_NAME ∨ p.1 = RUNTIME_CACHE_NAME) ∧
    (∀ p ∈ store.partitions,
        strStartsWith p.1 "invomodo-" = true → p.1 ≠ STATIC_CACHE_NAME →
        p.1 ≠ RUNTIME_CACHE_NAME →
        p ∉ (activateHandler store).store.partitions) ∧
    (activateHandler store).clientsClaimed = true ∧
    ((activateHandler store).store.partitions.map (fun p => p.1)).count
        STATIC_CACHE_NAME ≤ 1 ∧
    ((activateHandler store).store.partitions.map (fun p => p.1)).count
        RUNTIME_CACHE_NAME ≤ 1 := by
  have hsub : List.Sublist
      ((activateHandler store).store.partitions.map (fun p => p.1))
      (store.partitions.map (fun p => p.1)) :=
    (List.filter_sublist store.partitions).map (fun p => p.1)
  have hnd2 : ((activateHandler store).store.partitions.map (fun p => p.1)).Nodup :=
    hnd.sublist hsub
  refine ⟨?_, ?_, rfl, ?_, ?_⟩
  · intro p hp hpre
    have hcond := (List.mem_filter.mp hp).2
    by_cases hs : p.1 = STATIC_CACHE_NAME
    · exact Or.inl hs
    · by_cases hr : p.1 = RUNTIME_CACHE_NAME
      · exact Or.inr hr
      · exfalso
        simp [hpre, hs, hr] at hcond
  · intro p _ hpre hs hr hmem
    have hcond := (List.mem_filter.mp hmem).2
    simp [hpre, hs, hr] at hcond
  · exact List.nodup_iff_count_le_one.mp hnd2 STATIC_CACHE_NAME
  · exact List.nodup_iff_count_le_one.mp hnd2 RUNTIME_CACHE_NAME

/-- The activation sweep scenario of the spec: distinct names, clients
claimed, and the stale v0.9.0 static partition is deleted. -/
theorem activate_sweep_current_only_witness :
    (sweepStore.partitions.map (fun p => p.1)).Nodup ∧
    (activateHandler sweepStore).clientsClaimed = true :=
  ⟨by decide, (activate_sweep_current_only sweepStore (by decide)).2.2.1⟩

/-- C7: the cache-first strategy returns a cache hit at once with no
network fetch and unchanged storage; on a miss it fetches, stores an ok
response in the runtime partition and returns it; a rejected fetch
yields the built 404 response. -/
theorem cacheFirst_spec (net : Network) (store : CacheStore) (req : Request) :
    (∀ c, cachesMatch store req.url = some c →
        cacheFirstStrategy net store req = ⟨some c, store, false⟩) ∧
    (cachesMatch store req.url = none →
      ((∀ r, net req.url = some r → r.ok = true →
          cacheFirstStrategy net store req =
            ⟨some r, storePut store RUNTIME_CACHE_NAME req.url r, true⟩) ∧
       (net req.url = none →
          cacheFirstStrategy net store req =
            ⟨some ⟨404, "Not Found", "Resource not available"⟩, store, true⟩))) := by
  unfold cacheFirstStrategy
  constructor
  · intro c hc
    rw [hc]
  · intro hmiss
    rw [hmiss]
    constructor
    · intro r hr hok
      rw [hr]
      simp [hok]
    · intro hn
      rw [hn]

/-- A pre-cached response. -/
def cachedResp : Response := ⟨200, "OK", "cached body"⟩

/-- A storage holding one runtime entry for an icon URL. -/
def cachedStore : CacheStore :=
  ⟨[("invomodo-runtime-v1.0.0", [("/icons/logo.png", cachedResp)])]⟩

/-- A request for the pre-cached icon. -/
def iconReq : Request := ⟨"/icons/logo.png", "GET", "cors"⟩

/-- Concrete cache-first hit: the cached response comes back with no
fetch even though every network call would reject. -/
theorem cacheFirst_spec_witness :
    cacheFirstStrategy noNetwork cachedStore iconReq =
      ⟨some cachedResp, cachedStore, false⟩ :=
  (cacheFirst_spec noNetwork cachedStore iconReq).1 cachedResp rfl

/-- C8: the cache-only strategy is exactly the cache lookup across all
partitions: it issues no fetch, leaves the storage unchanged, and when
no partition holds an entry for the URL it yields no response and
synthesizes no fallback. -/
theorem cacheOnly_spec (store : CacheStore) (req : Request) :
    (cacheOnlyStrategy store req).response = cachesMatch store req.url ∧
    (cacheOnlyStrategy store req).store = store ∧
    (cacheOnlyStrategy store req).networkUsed = false ∧
    ((∀ p ∈ store.partitions, ∀ e ∈ p.2, e.1 ≠ req.url) →
      (cacheOnlyStrategy store req).response = none) := by
  refine ⟨rfl, rfl, rfl, ?_⟩
  intro h
  show cachesMatch store req.url = none
  unfold cachesMatch cachesMatchList
  rw [List.findSome?_eq_none_iff]
  intro p hp
  exact cacheGet_eq_none p.2 req.url (h p hp)

/-- Concrete cache-only miss on a nonempty storage yields no response. -/
theorem cacheOnly_spec_witness :
    (cacheOnlyStrategy cachedStore ⟨"/manifest.json", "GET", "cors"⟩).response = none :=
  (cacheOnly_spec cachedStore ⟨"/manifest.json", "GET", "cors"⟩).2.2.2 (by decide)

/-- C9: getCacheStatus replies with the partition name list, a per
partition detail holding its entry count and the sum of its stored body
byte sizes, and the total of those sizes; when the computation fails the
reply carries the error message instead of a thrown exception. -/
theorem getCacheStatus_spec (store : CacheStore) (msg : String) :
    getCacheStatus (Except.error msg) = StatusReply.error msg ∧
    getCacheStatus (Except.ok store) =
      StatusReply.ok
        { cacheNames := store.partitions.map (fun p => p.1)
          totalSize := (store.partitions.map
            (fun p => (p.2.map (fun e => e.2.body.utf8ByteSize)).sum)).sum
          cacheDetails := store.partitions.map (fun p =>
            (p.1, ⟨p.2.length, (p.2.map (fun e => e.2.body.utf8ByteSize)).sum⟩)) } := by
  constructor
  · rfl
  · unfold getCacheStatus
    simp only [partitionSize_eq_sum]
    rw [foldl_add_eq_sum]
    simp

/-- C10 counterexample: the URL of an extension-scheme GET request can end
with / while containing no network-first and no cache-first pattern, yet
the fetch listener passes it through to the default platform fetch
rather than dispatching it to the cache-only strategy. -/
theorem slash_url_extension_not_cache_only :
    strEndsWith "chrome-extension://abcd/" "/" = true ∧
    isNetworkFirstRoute "chrome-extension://abcd/" = false ∧
    isCacheFirstRoute "chrome-extension://abcd/" = false ∧
    routeRequest ⟨"chrome-extension://abcd/", "GET", "navigate"⟩ ≠
      some Strategy.cacheOnly ∧
    routeRequest ⟨"chrome-extension://abcd/", "GET", "navigate"⟩ = none := by
  decide

/-- C10 amended: every GET request whose URL ends with /, does not use the
extension scheme, and contains no network-first and no cache-first
pattern is routed to the cache-only strategy, because / is among the
declared static assets and the static-asset predicate only tests URL
suffixes; when no partition holds an entry for the URL, such a request
gets no response at all and no network fetch. -/
theorem slash_url_routes_cache_only (req : Request) (store : CacheStore)
    (hm : req.method = "GET")
    (hext : strStartsWith req.url "chrome-extension://" = false)
    (hnf : isNetworkFirstRoute req.url = false)
    (hcf : isCacheFirstRoute req.url = false)
    (hslash : strEndsWith req.url "/" = true) :
    routeRequest req = some Strategy.cacheOnly ∧
    (storeHasEntry store req.url = false →
      (cacheOnlyStrategy store req).response = none ∧
      (cacheOnlyStrategy store req).networkUsed = false) := by
  have hsa : isStaticAsset req.url = true := by
    unfold isStaticAsset
    rw [List.any_eq_true]
    exact ⟨"/", by decide, hslash⟩
  constructor
  · simp [routeRequest, hm, hext, hnf, hcf, hsa]
  · intro hmiss
    refine ⟨?_, rfl⟩
    show cachesMatch store req.url = none
    exact cachesMatch_eq_none store req.url hmiss

/-- An uncached trailing-slash page URL. -/
def slashReq : Request := ⟨"https://app.example/dashboard/", "GET", "navigate"⟩

/-- Concrete trailing-slash GET request: routed cache-only, and with an
empty storage it receives no response. -/
theorem slash_url_routes_cache_only_witness :
    routeRequest slashReq = some Strategy.cacheOnly ∧
    (cacheOnlyStrategy emptyStore slashReq).response = none :=
  ⟨(slash_url_routes_cache_only slashReq emptyStore rfl (by decide) (by decide)
      (by decide) (by decide)).1,
   ((slash_url_routes_cache_only slashReq emptyStore rfl (by decide) (by decide)
      (by decide) (by decide)).2 rfl).1⟩

end Invomodo
